import Mathlib

set_option maxRecDepth 100000

set_option maxHeartbeats 4000000

/- Verification development for the pattern-learning SQL constructor
   (class QueryConstructor of src/query_constructor.py) and the fallback
   contract of src/llm_fallback.py (LLMTeacher.ask).

   Strings are modelled as Lean strings, processed as lists of characters.
   The regular expressions of the source are hand-rolled scanners with the
   same matching semantics (leftmost match, greedy quantifiers,
   non-overlapping substitution) on the alphabets that occur in this
   program: ASCII and Cyrillic.  Python's str.lower and the character
   classes \d, \w, \s are modelled on these alphabets as well. -/

namespace QC

abbrev Str := List Char

/-- Literal left brace character (written by code point to keep string
literals free of stray braces). -/
def lbrace : Char := Char.ofNat 123

/-- Literal single-quote character. -/
def squote : Char := Char.ofNat 39

/-- Tab, line feed, carriage return (whitespace besides the space). -/
def tabC : Char := Char.ofNat 9

def lfC : Char := Char.ofNat 10

def crC : Char := Char.ofNat 13

/-- Python \d on the program's alphabet. -/
def isDigitC (c : Char) : Bool := ('0' ≤ c) && (c ≤ '9')

/-- The character class [a-f0-9] of the identifier regexes. -/
def isHexC (c : Char) : Bool := isDigitC c || (('a' ≤ c) && (c ≤ 'f'))

/-- Python \s on the inputs of this program. -/
def isSpaceC (c : Char) : Bool := c = ' ' || c = tabC || c = lfC || c = crC

/-- Cyrillic lower-case letter а..я or ё. -/
def isCyrLowerC (c : Char) : Bool :=
  (('а' ≤ c) && (c ≤ 'я')) || c = 'ё'

/-- Cyrillic upper-case letter А..Я or Ё. -/
def isCyrUpperC (c : Char) : Bool :=
  (('А' ≤ c) && (c ≤ 'Я')) || c = 'Ё'

/-- Python \w (word character) on the program's alphabet: ASCII letters,
digits, underscore and Cyrillic letters. -/
def isWordC (c : Char) : Bool :=
  (('a' ≤ c) && (c ≤ 'z')) || (('A' ≤ c) && (c ≤ 'Z')) ||
  isDigitC c || c = '_' || isCyrLowerC c || isCyrUpperC c

/-- Python str.lower on the program's alphabet (ASCII and Cyrillic). -/
def lowerC (c : Char) : Char :=
  if ('A' ≤ c) && (c ≤ 'Z') then Char.ofNat (c.toNat + 32)
  else if ('А' ≤ c) && (c ≤ 'Я') then Char.ofNat (c.toNat + 32)
  else if c = 'Ё' then 'ё'
  else c

/-- Is `pat` a prefix of `s`? (List.isPrefixOf, spelt out for clarity.) -/
def startsWithL (pat s : Str) : Bool := pat.isPrefixOf s

/-- Python `pat in s` (substring test). -/
def containsL (pat : Str) : Str → Bool
  | [] => startsWithL pat []
  | c :: rest => startsWithL pat (c :: rest) || containsL pat rest

/-- Python str.replace: replace every non-overlapping occurrence of `pat`
(scanning left to right) by `rep`.  Fuel is the length of the input. -/
def replaceAllL (pat rep : Str) (s : Str) : Str :=
  go s.length s
where
  go : Nat → Str → Str
  | 0, s => s
  | fuel + 1, s =>
    match s with
    | [] => []
    | c :: rest =>
      if startsWithL pat (c :: rest) && !pat.isEmpty then
        rep ++ go fuel ((c :: rest).drop pat.length)
      else
        c :: go fuel rest

/-- Python str.replace with count 1: replace the leftmost occurrence only. -/
def replaceFirstL (pat rep : Str) : Str → Str
  | [] => []
  | c :: rest =>
    if startsWithL pat (c :: rest) && !pat.isEmpty then
      rep ++ (c :: rest).drop pat.length
    else
      c :: replaceFirstL pat rep rest

/-- Python str.count: number of non-overlapping occurrences. -/
def countOccurL (pat : Str) (s : Str) : Nat :=
  go s.length s
where
  go : Nat → Str → Nat
  | 0, _ => 0
  | fuel + 1, s =>
    match s with
    | [] => 0
    | c :: rest =>
      if startsWithL pat (c :: rest) && !pat.isEmpty then
        1 + go fuel ((c :: rest).drop pat.length)
      else
        go fuel rest

/-- Decimal digits of a natural number, as characters (str(n) in Python). -/
def natReprL (n : Nat) : Str := (Nat.repr n).toList

/-- Python int() on a string of decimal digits. -/
def strToNatL (s : Str) : Nat :=
  s.foldl (fun acc c => acc * 10 + (c.toNat - '0'.toNat)) 0

/-- Zero-padded two-digit rendering (%02d). -/
def pad2 (n : Nat) : Str := if n < 10 then '0' :: natReprL n else natReprL n

/- ------------------------------------------------------------------
   _extract_words (query_constructor.py lines 161-195)
   ------------------------------------------------------------------ -/

/-- Does `s` start with exactly 32 hex characters (regex [a-f0-9]{32})? -/
def hex32At (s : Str) : Bool :=
  (s.take 32).length = 32 && (s.take 32).all isHexC

/-- re.sub of [a-f0-9]{32} by " IDCREATOR " (leftmost, non-overlapping). -/
def subHex32 (s : Str) : Str :=
  go s.length s
where
  go : Nat → Str → Str
  | 0, s => s
  | fuel + 1, s =>
    match s with
    | [] => []
    | c :: rest =>
      if hex32At (c :: rest) then
        (" IDCREATOR ".toList) ++ go fuel ((c :: rest).drop 32)
      else
        c :: go fuel rest

/-- Does `s` start with a UUID-shaped run
[a-f0-9]{8}-[a-f0-9]{4}-[a-f0-9]{4}-[a-f0-9]{4}-[a-f0-9]{12}? -/
def uuidAt (s : Str) : Bool :=
  let seg (l : Str) (n : Nat) : Bool := (l.take n).length = n && (l.take n).all isHexC
  seg s 8 && (s.drop 8).take 1 = ['-'] &&
  seg (s.drop 9) 4 && (s.drop 13).take 1 = ['-'] &&
  seg (s.drop 14) 4 && (s.drop 18).take 1 = ['-'] &&
  seg (s.drop 19) 4 && (s.drop 23).take 1 = ['-'] &&
  seg (s.drop 24) 12

/-- re.sub of the UUID regex by " IDVIDEO ". -/
def subUuid (s : Str) : Str :=
  go s.length s
where
  go : Nat → Str → Str
  | 0, s => s
  | fuel + 1, s =>
    match s with
    | [] => []
    | c :: rest =>
      if uuidAt (c :: rest) then
        (" IDVIDEO ".toList) ++ go fuel ((c :: rest).drop 36)
      else
        c :: go fuel rest

/-- re.sub of \b\d{1,4}\b by a space.  The match needs a word boundary on
both sides: the previous character (tracked by `prev`: was it a word
character?) must not be a word character, the digit run must have length
1..4, and the character after the run must not be a word character. -/
def subShortNum (s : Str) : Str :=
  go false s.length s
where
  go : Bool → Nat → Str → Str
  | _, 0, s => s
  | prev, fuel + 1, s =>
    match s with
    | [] => []
    | c :: rest =>
      let run := (c :: rest).takeWhile isDigitC
      let next := (c :: rest).drop run.length
      if !prev && isDigitC c && run.length ≤ 4 &&
          (next.take 1).all (fun d => !isWordC d) then
        ' ' :: go true fuel next
      else
        c :: go (isWordC c) fuel rest

/-- Does `s` start with a \d{4}-\d{2}-\d{2} shaped run? -/
def isoAt (s : Str) : Bool :=
  let seg (l : Str) (n : Nat) : Bool := (l.take n).length = n && (l.take n).all isDigitC
  seg s 4 && (s.drop 4).take 1 = ['-'] &&
  seg (s.drop 5) 2 && (s.drop 7).take 1 = ['-'] &&
  seg (s.drop 8) 2

/-- re.sub of \d{4}-\d{2}-\d{2} by a space. -/
def subIso (s : Str) : Str :=
  go s.length s
where
  go : Nat → Str → Str
  | 0, s => s
  | fuel + 1, s =>
    match s with
    | [] => []
    | c :: rest =>
      if isoAt (c :: rest) then
        ' ' :: go fuel ((c :: rest).drop 10)
      else
        c :: go fuel rest

/-- Python str.split() (split on runs of whitespace, dropping empties). -/
def splitWs (s : Str) : List Str :=
  go [] [] s
where
  go (acc : List Str) (cur : Str) : Str → List Str
  | [] => if cur.isEmpty then acc.reverse else (cur.reverse :: acc).reverse
  | c :: rest =>
    if isSpaceC c then
      if cur.isEmpty then go acc [] rest else go (cur.reverse :: acc) [] rest
    else
      go acc (c :: cur) rest

/-- self.stop_words (query_constructor.py line 33). -/
def stop_words : List String :=
  ["и", "в", "с", "по", "за", "у", "о", "от", "есть", "всего", "x", "id"]

/-- _extract_words: lower-case, turn ? . , into spaces, protect 32-hex and
UUID identifiers, strip 1-4 digit numbers and ISO dates, split on
whitespace, drop stop words and tokens shorter than 3 characters.  The
Python function returns a set; we return the list of distinct kept tokens
in first-occurrence order (only its membership is ever observed). -/
def _extract_words (query : String) : List String :=
  let ql := query.toList.map lowerC
  let clean := ql.map (fun c => if c = '?' || c = '.' || c = ',' then ' ' else c)
  let clean := subHex32 clean
  let clean := subUuid clean
  let clean := subShortNum clean
  let clean := subIso clean
  let toks := (splitWs clean).map String.mk
  toks.foldl
    (fun acc w =>
      if w ∈ stop_words then acc
      else if w.length < 3 then acc
      else if w ∈ acc then acc
      else acc ++ [w])
    []

/- ------------------------------------------------------------------
   _generalize_sql (query_constructor.py lines 515-554)
   ------------------------------------------------------------------ -/

/-- Generic re.sub driver: at each position try the matcher; on a match
emit the replacement and resume after the matched span, otherwise keep the
character.  All matchers below consume at least one character. -/
def scanSub (m : Str → Option (Str × Nat)) (s : Str) : Str :=
  go s.length s
where
  go : Nat → Str → Str
  | 0, s => s
  | _ + 1, [] => []
  | fuel + 1, c :: rest =>
    match m (c :: rest) with
    | some (rep, k) => rep ++ go fuel ((c :: rest).drop k)
    | none => c :: go fuel rest

/-- Length of the leading whitespace run. -/
def spacesLen (s : Str) : Nat := (s.takeWhile isSpaceC).length

/-- Length of the leading digit run. -/
def digitsLen (s : Str) : Nat := (s.takeWhile isDigitC).length

/-- Regex '(\d{4}-\d{2}-\d{2})' → '{DATE}'. -/
def matchDateLit (s : Str) : Option (Str × Nat) :=
  match s with
  | c :: rest =>
    if c = squote && isoAt rest && (rest.drop 10).take 1 = [squote] then
      some ("'{DATE}'".toList, 12)
    else none
  | [] => none

def yearLit : Str := "EXTRACT(YEAR FROM video_created_at)".toList

def monthLit : Str := "EXTRACT(MONTH FROM video_created_at)".toList

/-- Regex EXTRACT\(YEAR FROM video_created_at\)\s*=\s*\d{4}. -/
def matchYearEq (s : Str) : Option (Str × Nat) :=
  if startsWithL yearLit s then
    let r1 := s.drop yearLit.length
    let sp1 := spacesLen r1
    match r1.drop sp1 with
    | '=' :: r3 =>
      let sp2 := spacesLen r3
      let r4 := r3.drop sp2
      if (r4.take 4).length = 4 && (r4.take 4).all isDigitC then
        some ("EXTRACT(YEAR FROM video_created_at) = {YEAR}".toList,
              yearLit.length + sp1 + 1 + sp2 + 4)
      else none
    | _ => none
  else none

/-- Regex EXTRACT\(MONTH FROM video_created_at\)\s*=\s*\d{1,2} (greedy). -/
def matchMonthEq (s : Str) : Option (Str × Nat) :=
  if startsWithL monthLit s then
    let r1 := s.drop monthLit.length
    let sp1 := spacesLen r1
    match r1.drop sp1 with
    | '=' :: r3 =>
      let sp2 := spacesLen r3
      let d := min 2 (digitsLen (r3.drop sp2))
      if d ≥ 1 then
        some ("EXTRACT(MONTH FROM video_created_at) = {MONTH}".toList,
              monthLit.length + sp1 + 1 + sp2 + d)
      else none
    | _ => none
  else none

/-- Regex ([<>]=?|=)\s*\d+ → \1 {NUMBER}. -/
def matchNumCmp (s : Str) : Option (Str × Nat) :=
  match s with
  | c :: rest =>
    let op : Option (Str × Nat) :=
      if c = '<' || c = '>' then
        if rest.take 1 = ['='] then some ([c, '='], 2) else some ([c], 1)
      else if c = '=' then some ([c], 1)
      else none
    match op with
    | some (opChars, opLen) =>
      let r1 := s.drop opLen
      let sp := spacesLen r1
      let d := digitsLen (r1.drop sp)
      if d ≥ 1 then
        some (opChars ++ " {NUMBER}".toList, opLen + sp + d)
      else none
    | none => none
  | [] => none

/-- Regex '([\w-]{15,}|\w{5,})' → '{ID}'. -/
def matchIdLit (s : Str) : Option (Str × Nat) :=
  match s with
  | c :: rest =>
    if c = squote then
      let run := rest.takeWhile (fun d => isWordC d || d = '-')
      if (rest.drop run.length).take 1 = [squote] &&
          (run.length ≥ 15 || (run.length ≥ 5 && run.all isWordC)) then
        some ("'{ID}'".toList, run.length + 2)
      else none
    else none
  | [] => none

/-- Regex BETWEEN\s+(\d+)\s+AND\s+(\d+) → BETWEEN {HOUR1} AND {HOUR2}. -/
def matchBetweenHours (s : Str) : Option (Str × Nat) :=
  let lit := "BETWEEN".toList
  if startsWithL lit s then
    let r1 := s.drop lit.length
    let sp1 := spacesLen r1
    let d1 := digitsLen (r1.drop sp1)
    let r2 := r1.drop (sp1 + d1)
    let sp2 := spacesLen r2
    let r3 := r2.drop sp2
    if sp1 ≥ 1 && d1 ≥ 1 && sp2 ≥ 1 && startsWithL "AND".toList r3 then
      let r4 := r3.drop 3
      let sp3 := spacesLen r4
      let d2 := digitsLen (r4.drop sp3)
      if sp3 ≥ 1 && d2 ≥ 1 then
        some ("BETWEEN {HOUR1} AND {HOUR2}".toList,
              lit.length + sp1 + d1 + sp2 + 3 + sp3 + d2)
      else none
    else none
  else none

def hourVsLit : Str := "EXTRACT(HOUR FROM vs.created_at)".toList

/-- Regex EXTRACT\(HOUR FROM vs\.created_at\)\s*>=\s*(\d+). -/
def matchHourGe (s : Str) : Option (Str × Nat) :=
  if startsWithL hourVsLit s then
    let r1 := s.drop hourVsLit.length
    let sp1 := spacesLen r1
    match r1.drop sp1 with
    | '>' :: '=' :: r3 =>
      let sp2 := spacesLen r3
      let d := digitsLen (r3.drop sp2)
      if d ≥ 1 then
        some ("EXTRACT(HOUR FROM vs.created_at) >= {HOUR1}".toList,
              hourVsLit.length + sp1 + 2 + sp2 + d)
      else none
    | _ => none
  else none

/-- Regex EXTRACT\(HOUR FROM vs\.created_at\)\s*<\s*(\d+). -/
def matchHourLt (s : Str) : Option (Str × Nat) :=
  if startsWithL hourVsLit s then
    let r1 := s.drop hourVsLit.length
    let sp1 := spacesLen r1
    match r1.drop sp1 with
    | '<' :: r3 =>
      let sp2 := spacesLen r3
      let d := digitsLen (r3.drop sp2)
      if d ≥ 1 then
        some ("EXTRACT(HOUR FROM vs.created_at) < {HOUR2}".toList,
              hourVsLit.length + sp1 + 1 + sp2 + d)
      else none
    | _ => none
  else none

/-- _generalize_sql: turn a concrete SQL string into a template, pass by
pass exactly as in the source (MySQL spellings, date literals, YEAR/MONTH
extracts, generic numeric comparisons, quoted identifiers, hour bounds). -/
def _generalize_sql (sql : String) : String :=
  let template := sql.toList
  let template := replaceAllL "DATE_FORMAT(created_at, '%Y-%m-%d')".toList
    "DATE(created_at)".toList template
  let template := replaceAllL "HOUR(created_at)".toList
    "EXTRACT(HOUR FROM created_at)".toList template
  let template := scanSub matchDateLit template
  let template := if containsL yearLit template then scanSub matchYearEq template else template
  let template := if containsL monthLit template then scanSub matchMonthEq template else template
  let template := scanSub matchNumCmp template
  let template := scanSub matchIdLit template
  let template := scanSub matchBetweenHours template
  let template := scanSub matchHourGe template
  let template := scanSub matchHourLt template
  String.mk template

/- ------------------------------------------------------------------
   Data model: patterns, statistics, constructor state
   ------------------------------------------------------------------ -/

/-- One learned pattern record (query_constructor.py lines 501-508).
`created_at` is datetime.now().isoformat() in the source — an opaque
wall-clock string never inspected by the engine; it is modelled by the
empty string. -/
structure Pattern where
  words : List String
  template : String
  count : Nat
  examples : List String
  source : String
  created_at : String
deriving DecidableEq, Repr

/-- self.stats (query_constructor.py lines 36-41). -/
structure Stats where
  exact_hits : Nat
  pattern_hits : Nat
  llm_calls : Nat
  new_patterns : Nat
deriving DecidableEq, Repr

/-- Python dicts preserve insertion order, so both dictionaries of the
store are modelled as association lists in insertion order.  Assignment
`d[k] = v` updates the value in place when the key exists and appends
otherwise. -/
def assocLookup (l : List (String × α)) (k : String) : Option α :=
  (l.find? (fun kv => kv.1 = k)).map (·.2)

def dictInsert (k : String) (v : α) : List (String × α) → List (String × α)
  | [] => [(k, v)]
  | kv :: rest =>
    if kv.1 = k then (k, v) :: rest else kv :: dictInsert k v rest

/-- The in-memory state of a QueryConstructor: the exact cache, the
pattern table, the inverted word index and the counters.  The JSON
persistence of the source (_load_data/_save_cache/_save_all_data) is
best-effort file I/O that never alters this in-memory state, so saves are
modelled as no-ops and construction starts from empty documents (the
repository ships no cache files). -/
structure QCState where
  exact_cache : List (String × String)
  patterns : List (String × Pattern)
  word_index : List (String × List String)
  stats : Stats
deriving DecidableEq, Repr

def emptyStats : Stats := ⟨0, 0, 0, 0⟩

def emptyState : QCState := ⟨[], [], [], emptyStats⟩

/- ------------------------------------------------------------------
   _make_pattern_key (query_constructor.py lines 556-560)
   ------------------------------------------------------------------ -/

/-- Python's string `<` (used by sorted()): lexicographic comparison of
code points, a proper prefix being smaller. -/
def lexLeB : Str → Str → Bool
  | [], _ => true
  | _ :: _, [] => false
  | a :: as, b :: bs =>
    if a.toNat < b.toNat then true
    else if b.toNat < a.toNat then false
    else lexLeB as bs

def pyStrLe (a b : String) : Prop := lexLeB a.toList b.toList = true

instance : DecidableRel pyStrLe :=
  fun a b => inferInstanceAs (Decidable (lexLeB a.toList b.toList = true))

/-- _make_pattern_key joins the sorted words with spaces and takes the
first 16 hex digits of the md5 of that string.  md5 is a fixed
deterministic function of the joined string; the digest step is modelled
by the identity (the engine relies only on determinism, and on distinct
word sets yielding distinct keys, which holds for the join of sorted
words because extracted words never contain spaces).  Sorting uses
Python's code-point string order. -/
def _make_pattern_key (words : List String) : String :=
  String.intercalate " " (List.insertionSort pyStrLe words.dedup)

/- ------------------------------------------------------------------
   _learn_from_example (query_constructor.py lines 488-513)
   ------------------------------------------------------------------ -/

/-- Add `key` to the word-index entry of `word` (defaultdict(set).add). -/
def wordIndexAdd (word key : String) (wi : List (String × List String)) :
    List (String × List String) :=
  match assocLookup wi word with
  | some keys =>
    dictInsert word (if key ∈ keys then keys else keys ++ [key]) wi
  | none => wi ++ [(word, [key])]

/-- _learn_from_example: no-op on an empty word set; otherwise generalize
the SQL and either bump the existing pattern for the word-set key
(count += 1, example appended) or create a fresh pattern record. -/
def _learn_from_example (st : QCState) (query sql : String)
    (words : List String) (source : String) : QCState :=
  if words.isEmpty then st
  else
    let template := _generalize_sql sql
    let pattern_key := _make_pattern_key words
    match assocLookup st.patterns pattern_key with
    | some p =>
      { st with
        patterns := dictInsert pattern_key
          { p with count := p.count + 1, examples := p.examples ++ [query] }
          st.patterns }
    | none =>
      { st with
        patterns := st.patterns ++
          [(pattern_key,
            { words := words, template := template, count := 1,
              examples := [query], source := source, created_at := "" })],
        word_index := words.foldl (fun wi w => wordIndexAdd w pattern_key wi)
          st.word_index,
        stats := { st.stats with new_patterns := st.stats.new_patterns + 1 } }

/- ------------------------------------------------------------------
   _rus_month_to_num (query_constructor.py lines 476-486)
   ------------------------------------------------------------------ -/

def month_map : List (String × Nat) :=
  [("января", 1), ("февраля", 2), ("марта", 3), ("апреля", 4),
   ("мая", 5), ("июня", 6), ("июля", 7), ("августа", 8),
   ("сентября", 9), ("октября", 10), ("ноября", 11), ("декабря", 12),
   ("январь", 1), ("февраль", 2), ("март", 3), ("апрель", 4),
   ("май", 5), ("июнь", 6), ("июль", 7), ("август", 8),
   ("сентябрь", 9), ("октябрь", 10), ("ноябрь", 11), ("декабрь", 12)]

def _rus_month_to_num (month_ru : String) : Option Nat :=
  assocLookup month_map (String.mk (month_ru.toList.map lowerC))

/- ------------------------------------------------------------------
   _find_pattern (query_constructor.py lines 198-273)
   ------------------------------------------------------------------ -/

/-- The key combinations of the high-priority pre-pass (lines 209-220),
in source order. -/
def key_combinations : List (List String × String) :=
  [(["отрицательным", "замеров", "статистики"], "negative_delta"),
   (["промежутке", "креатора", "часов"], "hours_creator"),
   (["суммарное", "просмотров", "количество"], "sum_views"),
   (["сколько", "видео", "есть"], "count_videos"),
   (["сколько", "креаторов"], "count_creators")]

/-- Set-inclusion of word lists (Python set.issubset). -/
def wordsSubset (xs ys : List String) : Bool := xs.all (· ∈ ys)

/-- Python `pat in template` on strings. -/
def strContains (template pat : String) : Bool :=
  containsL pat.toList template.toList

/-- The template test a fired key combination applies to each stored
pattern (lines 226-242). -/
def comboTemplateTest (pattern_type : String) (template : String) : Bool :=
  if pattern_type = "negative_delta" then
    strContains template "delta_views_count < 0"
  else if pattern_type = "hours_creator" then
    strContains template "EXTRACT(HOUR FROM"
  else if pattern_type = "sum_views" then
    strContains template "SUM(views_count)"
  else if pattern_type = "count_videos" then
    strContains template "COUNT(*) FROM videos" && !strContains template "WHERE"
  else if pattern_type = "count_creators" then
    strContains template "COUNT(DISTINCT creator_id)"
  else false

/-- Phase 1 of _find_pattern: for each key combination whose keyword set
is contained in the query words, return the first stored pattern passing
its template test; a combination with no passing pattern falls through to
the next combination. -/
def keyComboSearch (words : List String) (patterns : List (String × Pattern)) :
    Option (String × Pattern) :=
  key_combinations.findSome? fun combo =>
    if wordsSubset combo.1 words then
      patterns.findSome? fun kp =>
        if comboTemplateTest combo.2 kp.2.template then some kp else none
    else none

/-- One step of the phase-2 fold (lines 249-266).  Scores are exact
rationals; on the reachable comparisons (0, 0.8, 1.0, 1.0 + 0.1) the
Python floats order identically.  Candidates require the pattern word set
to be a subset of the query words. -/
def stdStep (words : List String) (acc : Option (String × Pattern) × ℚ)
    (kp : String × Pattern) : Option (String × Pattern) × ℚ :=
  let pattern_words := kp.2.words.dedup
  if wordsSubset pattern_words words then
    let common := pattern_words.filter (· ∈ words)
    let total_in_pattern := pattern_words.length
    let coverage : ℚ :=
      if total_in_pattern > 0 then (common.length : ℚ) / total_in_pattern else 0
    if coverage ≥ 4 / 5 then
      let score := coverage + (if common.length = total_in_pattern then (1 : ℚ) / 10 else 0)
      if score > acc.2 then (some kp, score) else acc
    else acc
  else acc

/-- Phase 2 of _find_pattern: the best-score scan over all patterns. -/
def stdSearch (words : List String) (patterns : List (String × Pattern)) :
    Option (String × Pattern) :=
  (patterns.foldl (stdStep words) (none, 0)).1

/-- _find_pattern, returning the matching store entry together with its
key.  The source returns the mutable pattern dict (an alias into
self.patterns); the key records which entry that alias denotes. -/
def _find_pattern_k (words : List String) (patterns : List (String × Pattern)) :
    Option (String × Pattern) :=
  if words.isEmpty then none
  else
    match keyComboSearch words patterns with
    | some kp => some kp
    | none => stdSearch words patterns

/-- _find_pattern as seen by callers: just the pattern record. -/
def _find_pattern (words : List String) (patterns : List (String × Pattern)) :
    Option Pattern :=
  (_find_pattern_k words patterns).map (·.2)

/- ------------------------------------------------------------------
   _fill_template (query_constructor.py lines 275-474)
   ------------------------------------------------------------------ -/

/-- re.search driver: try the matcher at every position, leftmost match
wins. -/
def searchO (m : Str → Option α) : Str → Option α
  | [] => m []
  | c :: rest =>
    match m (c :: rest) with
    | some a => some a
    | none => searchO m rest

/-- \s+ : length of the whitespace run, provided it is non-empty. -/
def spaces1 (s : Str) : Option Nat :=
  let n := spacesLen s
  if n ≥ 1 then some n else none

/-- (\d{1,2}) followed by the literal ":00" (greedy, with the regex
backtracking from two digits to one). -/
def hourNum (s : Str) : Option (Str × Nat) :=
  let tryK (k : Nat) : Option (Str × Nat) :=
    let ds := s.take k
    if ds.length = k && ds.all isDigitC && startsWithL ":00".toList (s.drop k) then
      some (ds, k + 3)
    else none
  (tryK 2).orElse fun _ => tryK 1

/-- Bare (\d{1,2}) (greedy). -/
def d12 (s : Str) : Option (Str × Nat) :=
  let tryK (k : Nat) : Option (Str × Nat) :=
    let ds := s.take k
    if ds.length = k && ds.all isDigitC then some (ds, k) else none
  (tryK 2).orElse fun _ => tryK 1

/-- Common tail (\d{1,2}):00\s+до\s+(\d{1,2}):00 of the first two hour
patterns. -/
def hourTailAt (s : Str) : Option (Str × Str) := do
  let (h1, k1) ← hourNum s
  let r2 := s.drop k1
  let sp2 ← spaces1 r2
  let r3 := r2.drop sp2
  if startsWithL "до".toList r3 then
    let r4 := r3.drop 2
    let sp3 ← spaces1 r4
    let (h2, _) ← hourNum (r4.drop sp3)
    pure (h1, h2)
  else none

/-- Hour pattern 1: с\s+(\d{1,2}):00\s+до\s+(\d{1,2}):00. -/
def hourP1At (s : Str) : Option (Str × Str) :=
  match s with
  | 'с' :: r1 => do
    let sp1 ← spaces1 r1
    hourTailAt (r1.drop sp1)
  | _ => none

/-- Hour pattern 2: в\s+промежутке\s+с\s+(\d{1,2}):00\s+до\s+(\d{1,2}):00. -/
def hourP2At (s : Str) : Option (Str × Str) :=
  match s with
  | 'в' :: r1 => do
    let sp1 ← spaces1 r1
    let r2 := r1.drop sp1
    if startsWithL "промежутке".toList r2 then
      let r3 := r2.drop 10
      let sp2 ← spaces1 r3
      match r3.drop sp2 with
      | 'с' :: r4 => do
        let sp3 ← spaces1 r4
        hourTailAt (r4.drop sp3)
      | _ => none
    else none
  | _ => none

/-- Hour pattern 3: между\s+(\d{1,2}):00\s+и\s+(\d{1,2}):00. -/
def hourP3At (s : Str) : Option (Str × Str) :=
  if startsWithL "между".toList s then do
    let r1 := s.drop 5
    let sp1 ← spaces1 r1
    let (h1, k1) ← hourNum (r1.drop sp1)
    let r2 := r1.drop (sp1 + k1)
    let sp2 ← spaces1 r2
    match r2.drop sp2 with
    | 'и' :: r3 => do
      let sp3 ← spaces1 r3
      let (h2, _) ← hourNum (r3.drop sp3)
      pure (h1, h2)
    | _ => none
  else none

/-- Hour pattern 4: (\d{1,2}):00\s*-\s*(\d{1,2}):00. -/
def hourP4At (s : Str) : Option (Str × Str) := do
  let (h1, k1) ← hourNum s
  let r1 := s.drop k1
  let sp1 := spacesLen r1
  match r1.drop sp1 with
  | '-' :: r2 =>
    let sp2 := spacesLen r2
    let (h2, _) ← hourNum (r2.drop sp2)
    pure (h1, h2)
  | _ => none

/-- Hour pattern 5: (\d{1,2})\s+до\s+(\d{1,2}). -/
def hourP5At (s : Str) : Option (Str × Str) := do
  let (h1, k1) ← d12 s
  let r1 := s.drop k1
  let sp1 ← spaces1 r1
  let r2 := r1.drop sp1
  if startsWithL "до".toList r2 then
    let r3 := r2.drop 2
    let sp2 ← spaces1 r3
    let (h2, _) ← d12 (r3.drop sp2)
    pure (h1, h2)
  else none

/-- The hour-pattern loop (lines 312-324): re.search each pattern in
order, first pattern that matches anywhere wins. -/
def hourSearch (ql : Str) : Option (Str × Str) :=
  (searchO hourP1At ql).orElse fun _ =>
  (searchO hourP2At ql).orElse fun _ =>
  (searchO hourP3At ql).orElse fun _ =>
  (searchO hourP4At ql).orElse fun _ =>
  searchO hourP5At ql

/-- One match of (\d{1,2})\s+(\w+)\s+(\d{4}) at the current position:
(day, month word, year, matched length). -/
def dateTripleAt (s : Str) : Option (Str × Str × Str × Nat) :=
  let tryK (k : Nat) : Option (Str × Str × Str × Nat) := do
    let ds := s.take k
    if ds.length = k && ds.all isDigitC then
      let r1 := s.drop k
      let sp1 ← spaces1 r1
      let w := (r1.drop sp1).takeWhile isWordC
      if w.length ≥ 1 then
        let r2 := r1.drop (sp1 + w.length)
        let sp2 ← spaces1 r2
        let y := (r2.drop sp2).take 4
        if y.length = 4 && y.all isDigitC then
          pure (ds, w, y, k + sp1 + w.length + sp2 + 4)
        else none
      else none
    else none
  (tryK 2).orElse fun _ => tryK 1

/-- re.findall of the date-triple regex (non-overlapping, resuming after
each match). -/
def findDateTriples (s : Str) : List (Str × Str × Str) :=
  go s.length s
where
  go : Nat → Str → List (Str × Str × Str)
  | 0, _ => []
  | _ + 1, [] => []
  | fuel + 1, c :: rest =>
    match dateTripleAt (c :: rest) with
    | some (d, w, y, k) => (d, w, y) :: go fuel ((c :: rest).drop k)
    | none => go fuel rest

/-- re.findall of \d{4}-\d{2}-\d{2}. -/
def findIsoDates (s : Str) : List Str :=
  go s.length s
where
  go : Nat → Str → List Str
  | 0, _ => []
  | _ + 1, [] => []
  | fuel + 1, c :: rest =>
    if isoAt (c :: rest) then
      ((c :: rest).take 10) :: go fuel ((c :: rest).drop 10)
    else
      go fuel rest

/-- re.findall of \b\d+\b (all bare integers, any length, with word
boundaries on both sides). -/
def findNumbers (s : Str) : List Str :=
  go false s.length s
where
  go : Bool → Nat → Str → List Str
  | _, 0, _ => []
  | _, _ + 1, [] => []
  | prev, fuel + 1, c :: rest =>
    let run := (c :: rest).takeWhile isDigitC
    let next := (c :: rest).drop run.length
    if !prev && isDigitC c && (next.take 1).all (fun d => !isWordC d) then
      run :: go true fuel next
    else
      go (isWordC c) fuel rest

/-- Regex в\s+(\w+)\s+(\d{4}): (month word, year). -/
def monthYearAt (s : Str) : Option (Str × Str) :=
  match s with
  | 'в' :: r1 => do
    let sp1 ← spaces1 r1
    let w := (r1.drop sp1).takeWhile isWordC
    if w.length ≥ 1 then
      let r2 := r1.drop (sp1 + w.length)
      let sp2 ← spaces1 r2
      let y := (r2.drop sp2).take 4
      if y.length = 4 && y.all isDigitC then pure (w, y) else none
    else none
  | _ => none

/-- id\s+([a-f0-9]{32}) at the current position (shared tail of the
creator-id patterns). -/
def idHexAt (s : Str) : Option Str :=
  if startsWithL "id".toList s then do
    let sp ← spaces1 (s.drop 2)
    let hx := (s.drop (2 + sp)).take 32
    if hx.length = 32 && hx.all isHexC then some hx else none
  else none

/-- Regex креатор[ауе]?\s+(?:с\s+)?id\s+([a-f0-9]{32}), with the greedy
optional groups backtracking as in the source. -/
def creatorR1At (s : Str) : Option Str :=
  if startsWithL "креатор".toList s then
    let afterSuffix (r1 : Str) : Option Str := do
      let sp1 ← spaces1 r1
      let r2 := r1.drop sp1
      let withC : Option Str :=
        match r2 with
        | 'с' :: r3 => do
          let sp2 ← spaces1 r3
          idHexAt (r3.drop sp2)
        | _ => none
      withC.orElse fun _ => idHexAt r2
    let r0 := s.drop 7
    let withLetter : Option Str :=
      match r0 with
      | c :: r0' =>
        if c = 'а' || c = 'у' || c = 'е' then afterSuffix r0' else none
      | [] => none
    withLetter.orElse fun _ => afterSuffix r0
  else none

/-- Regex креатора\s+([a-f0-9]{32}). -/
def creatorR3At (s : Str) : Option Str :=
  if startsWithL "креатора".toList s then do
    let sp ← spaces1 (s.drop 8)
    let hx := (s.drop (8 + sp)).take 32
    if hx.length = 32 && hx.all isHexC then some hx else none
  else none

/-- The creator-id search of _fill_template (lines 370-386): the anchored
pattern first, then the two alternative patterns in order. -/
def creatorIdSearch (ql : Str) : Option Str :=
  (searchO creatorR1At ql).orElse fun _ =>
  (searchO idHexAt ql).orElse fun _ =>
  searchO creatorR3At ql

/-- Step 5.1 helper: replace the placeholder everywhere provided it occurs
in the SQL and was extracted into params. -/
def replIf (sql : Str) (ph : String) (params : List (String × String)) : Str :=
  match assocLookup params ph with
  | some v => if containsL ph.toList sql then replaceAllL ph.toList v.toList sql else sql
  | none => sql

/-- Step 7 matcher: the dynamically built regex
BETWEEN\s+<hour1>\s+AND\s+<hour2> with the integers rendered by str(). -/
def matchBetweenFix (hour1 hour2 : Nat) (s : Str) : Option (Str × Nat) :=
  let lit := "BETWEEN".toList
  if startsWithL lit s then do
    let r1 := s.drop lit.length
    let sp1 ← spaces1 r1
    let r2 := r1.drop sp1
    if startsWithL (natReprL hour1) r2 then
      let r3 := r2.drop (natReprL hour1).length
      let sp2 ← spaces1 r3
      let r4 := r3.drop sp2
      if startsWithL "AND".toList r4 then
        let r5 := r4.drop 3
        let sp3 ← spaces1 r5
        let r6 := r5.drop sp3
        if startsWithL (natReprL hour2) r6 then
          some ("BETWEEN ".toList ++ natReprL hour1 ++ " AND ".toList ++ natReprL (hour2 - 1),
                lit.length + sp1 + (natReprL hour1).length + sp2 + 3 + sp3 +
                  (natReprL hour2).length)
        else none
      else none
    else none
  else none

/-- _fill_template: extract dates, hours, numbers and identifiers from the
raw query, then substitute the template's placeholders in the fixed order
of the source (special placeholders, sequential NUMBER, the remaining
params, leftover NUMBER via month/year, and the BETWEEN hour fix-up). -/
def _fill_template (template query : String) : String :=
  let ql := query.toList.map lowerC
  let qraw := query.toList
  let date_matches := findDateTriples ql
  let dates1 := date_matches.filterMap fun t =>
    match _rus_month_to_num (String.mk t.2.1) with
    | some mn => some (t.2.2 ++ ['-'] ++ pad2 mn ++ ['-'] ++ pad2 (strToNatL t.1))
    | none => none
  let dates := dates1 ++ findIsoDates qraw
  let params : List (String × String) := []
  let params :=
    match dates with
    | [] => params
    | d1 :: rest =>
      let params :=
        match rest with
        | d2 :: _ =>
          dictInsert "{DATE2}" (String.mk d2) (dictInsert "{DATE1}" (String.mk d1) params)
        | [] => params
      dictInsert "{DATE}" (String.mk d1) params
  let params :=
    match hourSearch ql with
    | some (h1, h2) =>
      dictInsert "{END_HOUR}" (String.mk h2) (dictInsert "{START_HOUR}" (String.mk h1)
        (dictInsert "{HOUR2}" (String.mk h2) (dictInsert "{HOUR1}" (String.mk h1) params)))
    | none => params
  let numbers := findNumbers qraw
  let params :=
    if numbers.isEmpty then params
    else
      let params :=
        match numbers with
        | n1 :: n2 :: _ =>
          dictInsert "{NUMBER2}" (String.mk n2) (dictInsert "{YEAR}" (String.mk n1) params)
        | _ => params
      match searchO monthYearAt ql with
      | some (w, y) =>
        match _rus_month_to_num (String.mk w) with
        | some mn =>
          dictInsert "{MONTH}" (String.mk (natReprL mn))
            (dictInsert "{YEAR}" (String.mk y) params)
        | none => params
      | none => params
  let params :=
    match creatorIdSearch ql with
    | some v => dictInsert "{ID}" (String.mk v) params
    | none => params
  let sql := template.toList
  let original_sql := sql
  let sql := replIf sql "{YEAR}" params
  let sql := replIf sql "{MONTH}" params
  let sql := replIf sql "{NUMBER2}" params
  let sql :=
    if containsL "{NUMBER}".toList sql && !numbers.isEmpty then
      let num_placeholders := countOccurL "{NUMBER}".toList sql
      if num_placeholders = 1 then
        replaceAllL "{NUMBER}".toList (numbers.headD []) sql
      else if num_placeholders ≥ 2 && numbers.length ≥ 2 then
        let sql := replaceFirstL "{NUMBER}".toList (numbers.headD []) sql
        let sql := replaceFirstL "{NUMBER}".toList (numbers.getD 1 []) sql
        replaceAllL "{NUMBER}".toList (numbers.getLastD []) sql
      else sql
    else sql
  let sql := params.foldl
    (fun sqlAcc pv =>
      if containsL pv.1.toList sqlAcc &&
          !(pv.1 = "{YEAR}" || pv.1 = "{MONTH}" || pv.1 = "{NUMBER2}") &&
          pv.1 ≠ "{NUMBER}" then
        replaceAllL pv.1.toList pv.2.toList sqlAcc
      else sqlAcc)
    sql
  let sql :=
    if containsL "{NUMBER}".toList sql then
      match searchO monthYearAt ql with
      | some (w, y) =>
        match _rus_month_to_num (String.mk w) with
        | some mn =>
          let remaining := countOccurL "{NUMBER}".toList sql
          if remaining = 2 then
            replaceFirstL "{NUMBER}".toList (natReprL mn)
              (replaceFirstL "{NUMBER}".toList y sql)
          else if remaining = 1 then
            replaceAllL "{NUMBER}".toList y sql
          else sql
        | none => sql
      | none => sql
    else sql
  let sql :=
    if containsL "{HOUR1}".toList original_sql && containsL "{HOUR2}".toList original_sql then
      match assocLookup params "{HOUR1}", assocLookup params "{HOUR2}" with
      | some h1s, some h2s =>
        let hour1 := strToNatL h1s.toList
        let hour2 := strToNatL h2s.toList
        if containsL "BETWEEN".toList sql && hour2 > hour1 then
          scanSub (matchBetweenFix hour1 hour2) sql
        else sql
      | _, _ => sql
    else sql
  String.mk sql

/- ------------------------------------------------------------------
   The fallback collaborator contract (llm_fallback.py, LLMTeacher.ask)
   and the orchestrator build_sql_async (query_constructor.py 97-159)
   ------------------------------------------------------------------ -/

/-- The LLMResult record returned by LLMTeacher.ask.  The confidence
field (a float constant 1.0 or 0.7) is never read by the constructor and
is omitted. -/
structure LLMResult where
  sql : String
  is_safe : Bool
deriving DecidableEq, Repr

/-- One awaited call of the fallback collaborator, as observed at the
`await self.llm.ask(...)` suspension point: the call may raise (network
errors, timeouts), return None, or return an LLMResult. -/
abbrev LLMCall := Except Unit (Option LLMResult)

/-- The fixed default query of step 4 (line 159). -/
def defaultQuery : String := "SELECT COUNT(*) FROM videos"

/-- build_sql_async.  `llm` is None when no collaborator is configured
(`self.llm` falsy), otherwise the outcome of awaiting `ask`.  The result
is in the Except monad: an uncaught exception inside the body would
surface as `.error`; the source wraps the collaborator call in
try/except, modelled by the explicit handler below.  File writes
(_save_cache/_save_all_data) catch their own exceptions and do not touch
the in-memory state. -/
def build_sql_async (st : QCState) (user_query : String) (use_llm : Bool)
    (llm : Option LLMCall) : Except Unit (String × QCState) :=
  match assocLookup st.exact_cache user_query with
  | some sql =>
    .ok (sql, { st with stats := { st.stats with exact_hits := st.stats.exact_hits + 1 } })
  | none =>
    let words := _extract_words user_query
    match _find_pattern_k words st.patterns with
    | some (pattern_key, pattern) =>
      let st₁ := { st with stats := { st.stats with pattern_hits := st.stats.pattern_hits + 1 } }
      let sql := _fill_template pattern.template user_query
      if lbrace ∉ sql.toList then
        let st₂ :=
          { st₁ with
            exact_cache := dictInsert user_query sql st₁.exact_cache,
            patterns := dictInsert pattern_key
              { pattern with count := pattern.count + 1 } st₁.patterns }
        .ok (sql, st₂)
      else
        .ok (sql, st₁)
    | none =>
      if use_llm && llm.isSome then
        let st₁ := { st with stats := { st.stats with llm_calls := st.stats.llm_calls + 1 } }
        let attempt : Except Unit (Option (String × QCState)) :=
          match llm with
          | some (.error e) => .error e
          | some (.ok none) => .ok none
          | some (.ok (some result)) =>
            if result.sql ≠ "" then
              let words' := _extract_words user_query
              let st₂ := _learn_from_example st₁ user_query result.sql words' "llm"
              let st₃ :=
                { st₂ with exact_cache := dictInsert user_query result.sql st₂.exact_cache }
              .ok (some (result.sql, st₃))
            else
              .ok none
          | none => .ok none
        match attempt with
        | .ok (some out) => .ok out
        | .ok none => .ok (defaultQuery, st₁)
        | .error _ => .ok (defaultQuery, st₁)
      else
        .ok (defaultQuery, st)

/- ------------------------------------------------------------------
   Construction: _init_tz_patterns (lines 55-95) and the
   public maintenance operations (lines 627-639)
   ------------------------------------------------------------------ -/

/-- The seed examples of _init_tz_patterns, verbatim from the source. -/
def tz_examples : List (String × String) :=
  [("Сколько всего видео есть в системе?",
    "SELECT COUNT(*) FROM videos"),
   ("Сколько видео набрало больше 100000 просмотров?",
    "SELECT COUNT(*) FROM videos WHERE views_count > {NUMBER}"),
   ("На сколько просмотров выросли все видео 28 ноября 2025?",
    "SELECT SUM(delta_views_count) FROM video_snapshots WHERE DATE(created_at) = '{DATE}'"),
   ("Сколько разных видео получали новые просмотры 27 ноября 2025?",
    "SELECT COUNT(DISTINCT video_id) FROM video_snapshots WHERE DATE(created_at) = '{DATE}' AND delta_views_count > 0"),
   ("Сколько видео у креатора с id abc123?",
    "SELECT COUNT(*) FROM videos WHERE creator_id = '{ID}'"),
   ("Сколько видео у креатора с id abc123 вышло с 1 по 5 ноября 2025?",
    "SELECT COUNT(*) FROM videos WHERE creator_id = '{ID}' AND DATE(video_created_at) BETWEEN '{DATE1}' AND '{DATE2}'"),
   ("Сколько видео у креатора с id abc123 вышло с 1 ноября 2025 по 28 ноября 2025 включительно?",
    "SELECT COUNT(*) FROM videos WHERE creator_id = '{ID}' AND DATE(video_created_at) BETWEEN '{DATE1}' AND '{DATE2}'"),
   ("Какое суммарное количество просмотров набрали все видео, опубликованные в июне 2025 года?",
    "SELECT SUM(views_count) FROM videos WHERE EXTRACT(YEAR FROM video_created_at) = {YEAR} AND EXTRACT(MONTH FROM video_created_at) = {MONTH}"),
   ("Какое суммарное количество просмотров набрали все видео, опубликованные в июне 2025 года?",
    "SELECT SUM(views_count) FROM videos WHERE EXTRACT(YEAR FROM video_created_at) = 2025 AND EXTRACT(MONTH FROM video_created_at) = 6"),
   ("На сколько просмотров суммарно выросли все видео креатора с id X в промежутке с 10:00 до 15:00 28 ноября 2025 года?",
    "SELECT SUM(delta_views_count) FROM video_snapshots vs JOIN videos v ON vs.video_id = v.id WHERE v.creator_id = '{ID}' AND DATE(vs.created_at) = '{DATE}' AND EXTRACT(HOUR FROM vs.created_at) >= {HOUR1} AND EXTRACT(HOUR FROM vs.created_at) < {HOUR2}"),
   ("Сколько замеров статистики с отрицательным приростом просмотров?",
    "SELECT COUNT(*) FROM video_snapshots WHERE delta_views_count < 0"),
   ("На сколько просмотров суммарно выросли все видео креатора с id X в промежутке с 10:00 до 15:00 28 ноября 2025 года?",
    "SELECT SUM(delta_views_count) FROM video_snapshots vs JOIN videos v ON vs.video_id = v.id WHERE v.creator_id = '{ID}' AND DATE(vs.created_at) = '{DATE}' AND EXTRACT(HOUR FROM vs.created_at) >= {HOUR1} AND EXTRACT(HOUR FROM vs.created_at) < {HOUR2}")]

/-- _init_tz_patterns: learn each seed example and put its raw SQL into
the exact cache. -/
def _init_tz_patterns (st : QCState) : QCState :=
  tz_examples.foldl
    (fun st qs =>
      let words := _extract_words qs.1
      let st := _learn_from_example st qs.1 qs.2 words "tz"
      { st with exact_cache := dictInsert qs.1 qs.2 st.exact_cache })
    st

/-- The state right after __init__ (no cache files on disk, so _load_data
leaves the empty state, then the seed examples are loaded). -/
def initState : QCState := _init_tz_patterns emptyState

/-- add_manual_pattern (lines 627-633). -/
def add_manual_pattern (st : QCState) (query sql : String) : QCState :=
  let words := _extract_words query
  let st := _learn_from_example st query sql words "manual"
  { st with exact_cache := dictInsert query sql st.exact_cache }

/-- clear_cache (lines 635-639): wipes the exact cache only. -/
def clear_cache (st : QCState) : QCState :=
  { st with exact_cache := [] }

/-- n successive resolutions of the same query (state after n calls). -/
def resolve_iter (q : String) (use_llm : Bool) (llm : Option LLMCall) :
    Nat → QCState → QCState
  | 0, st => st
  | n + 1, st =>
    match build_sql_async (resolve_iter q use_llm llm n st) q use_llm llm with
    | .ok (_, st') => st'
    | .error _ => resolve_iter q use_llm llm n st

/-- A store entry qualifies in the phase-2 scan iff its (deduplicated)
word set is non-empty and contained in the query words. -/
def qualB (words : List String) (kp : String × Pattern) : Bool :=
  !kp.2.words.dedup.isEmpty && wordsSubset kp.2.words.dedup words

/-- The canonical hour-range phrasing "с H1:00 до H2:00" with the hours
rendered without leading zeros (str() of the integers). -/
def hour_range_query (h1 h2 : Nat) : String :=
  "с " ++ Nat.repr h1 ++ ":00 до " ++ Nat.repr h2 ++ ":00"

/-- The hour-substitution contract of the template filler on the two
clause styles: a BETWEEN clause receives H1 and H2−1, while the
half-open >=/< comparisons receive H1 and H2 verbatim. -/
abbrev hour_fill_ok (h1 h2 : Nat) : Prop :=
  _fill_template "SELECT x FROM t WHERE h BETWEEN {HOUR1} AND {HOUR2}"
      (hour_range_query h1 h2) =
    "SELECT x FROM t WHERE h BETWEEN " ++ Nat.repr h1 ++ " AND " ++ Nat.repr (h2 - 1) ∧
  _fill_template "SELECT x FROM t WHERE h >= {HOUR1} AND h < {HOUR2}"
      (hour_range_query h1 h2) =
    "SELECT x FROM t WHERE h >= " ++ Nat.repr h1 ++ " AND h < " ++ Nat.repr h2

/- ------------------------------------------------------------------
   Helper lemmas: dictionaries as association lists
   ------------------------------------------------------------------ -/

theorem assocLookup_cons_of_eq (kv : String × α) (l : List (String × α)) (k : String)
    (h : kv.1 = k) : assocLookup (kv :: l) k = some kv.2 := by
  unfold assocLookup
  rw [List.find?_cons_of_pos _ (by simpa using h)]
  rfl

theorem assocLookup_cons_of_ne (kv : String × α) (l : List (String × α)) (k : String)
    (h : ¬kv.1 = k) : assocLookup (kv :: l) k = assocLookup l k := by
  unfold assocLookup
  rw [List.find?_cons_of_neg _ (by simpa using h)]

theorem assocLookup_dictInsert (l : List (String × α)) (k k' : String) (v : α) :
    assocLookup (dictInsert k v l) k' = if k' = k then some v else assocLookup l k' := by
  induction l with
  | nil =>
    by_cases h : k' = k
    · rw [if_pos h]
      exact assocLookup_cons_of_eq (k, v) [] k' h.symm
    · rw [if_neg h]
      show assocLookup ((k, v) :: []) k' = assocLookup [] k'
      rw [assocLookup_cons_of_ne (k, v) [] k' (fun hh => h hh.symm)]
  | cons kv rest ih =>
    by_cases hk : kv.1 = k
    · show assocLookup (if kv.1 = k then (k, v) :: rest else kv :: dictInsert k v rest) k'
        = if k' = k then some v else assocLookup (kv :: rest) k'
      rw [if_pos hk]
      by_cases h : k' = k
      · rw [if_pos h]
        exact assocLookup_cons_of_eq (k, v) rest k' h.symm
      · rw [if_neg h, assocLookup_cons_of_ne (k, v) rest k' (fun hh => h hh.symm),
          assocLookup_cons_of_ne kv rest k' (fun hh => h (hk.symm.trans hh).symm)]
    · show assocLookup (if kv.1 = k then (k, v) :: rest else kv :: dictInsert k v rest) k'
        = if k' = k then some v else assocLookup (kv :: rest) k'
      rw [if_neg hk]
      by_cases hkv : kv.1 = k'
      · have hne : ¬k' = k := fun hh => hk (hkv.trans hh)
        rw [if_neg hne, assocLookup_cons_of_eq kv (dictInsert k v rest) k' hkv,
          assocLookup_cons_of_eq kv rest k' hkv]
      · rw [assocLookup_cons_of_ne kv (dictInsert k v rest) k' hkv, ih,
          assocLookup_cons_of_ne kv rest k' hkv]

theorem dictInsert_length_of_mem (l : List (String × α)) (k : String) (v : α)
    (h : (assocLookup l k).isSome) : (dictInsert k v l).length = l.length := by
  induction l with
  | nil => simp [assocLookup] at h
  | cons kv rest ih =>
    by_cases hk : kv.1 = k
    · show (if kv.1 = k then (k, v) :: rest else kv :: dictInsert k v rest).length = _
      rw [if_pos hk]
      rfl
    · rw [assocLookup_cons_of_ne kv rest k hk] at h
      show (if kv.1 = k then (k, v) :: rest else kv :: dictInsert k v rest).length = _
      rw [if_neg hk]
      simp only [List.length_cons]
      rw [ih h]

theorem assocLookup_append_of_none (l : List (String × α)) (k : String) (v : α)
    (h : assocLookup l k = none) : assocLookup (l ++ [(k, v)]) k = some v := by
  induction l with
  | nil => exact assocLookup_cons_of_eq (k, v) [] k rfl
  | cons kv rest ih =>
    by_cases hk : kv.1 = k
    · rw [assocLookup_cons_of_eq kv rest k hk] at h
      exact absurd h (by simp)
    · rw [assocLookup_cons_of_ne kv rest k hk] at h
      show assocLookup (kv :: (rest ++ [(k, v)])) k = some v
      rw [assocLookup_cons_of_ne kv _ k hk]
      exact ih h

/- ------------------------------------------------------------------
   Helper lemmas: the phase-2 best-score scan of _find_pattern
   ------------------------------------------------------------------ -/

theorem stdStep_not_subset (words : List String) (acc : Option (String × Pattern) × ℚ)
    (kp : String × Pattern) (h : wordsSubset kp.2.words.dedup words = false) :
    stdStep words acc kp = acc := by
  unfold stdStep
  dsimp only
  rw [h]
  rfl

theorem stdStep_empty (words : List String) (acc : Option (String × Pattern) × ℚ)
    (kp : String × Pattern) (h : kp.2.words.dedup = []) :
    stdStep words acc kp = acc := by
  unfold stdStep
  dsimp only
  rw [h]
  by_cases hs : wordsSubset ([] : List String) words = true
  · rw [hs]
    simp
  · rw [Bool.of_not_eq_true hs]
    rfl

theorem stdStep_qual (words : List String) (acc : Option (String × Pattern) × ℚ)
    (kp : String × Pattern) (h : qualB words kp = true) :
    stdStep words acc kp =
      if (11 : ℚ) / 10 > acc.2 then (some kp, (11 : ℚ) / 10) else acc := by
  have hne : kp.2.words.dedup.isEmpty = false := by
    have := (Bool.and_eq_true _ _).mp h |>.1
    simpa using this
  have hsub : wordsSubset kp.2.words.dedup words = true :=
    (Bool.and_eq_true _ _).mp h |>.2
  have hfilter : kp.2.words.dedup.filter (· ∈ words) = kp.2.words.dedup := by
    apply List.filter_eq_self.mpr
    intro a ha
    exact List.all_eq_true.mp hsub a ha
  have hlen : 0 < kp.2.words.dedup.length := by
    cases hcase : kp.2.words.dedup with
    | nil => rw [hcase] at hne; simp at hne
    | cons x xs => exact Nat.succ_pos _
  unfold stdStep
  dsimp only
  rw [hsub]
  simp only [hfilter]
  rw [if_pos hlen]
  have hdiv : ((kp.2.words.dedup.length : ℚ) / (kp.2.words.dedup.length : ℚ)) = 1 := by
    apply div_self
    exact_mod_cast Nat.pos_iff_ne_zero.mp hlen
  rw [hdiv]
  norm_num

theorem stdStep_keep (words : List String) (x : String × Pattern)
    (kp : String × Pattern) :
    stdStep words (some x, (11 : ℚ) / 10) kp = (some x, (11 : ℚ) / 10) := by
  by_cases hq : qualB words kp = true
  · rw [stdStep_qual words _ kp hq]
    rw [if_neg (lt_irrefl _)]
  · have h' := Bool.of_not_eq_true hq
    unfold qualB at h'
    rcases Bool.and_eq_false_iff.mp h' with h1 | h2
    · have : kp.2.words.dedup = [] := by
        cases hcase : kp.2.words.dedup with
        | nil => rfl
        | cons a l => rw [hcase] at h1; simp at h1
      exact stdStep_empty words _ kp this
    · exact stdStep_not_subset words _ kp h2

theorem foldl_stdStep_keep (words : List String) (ps : List (String × Pattern))
    (x : String × Pattern) :
    ps.foldl (stdStep words) (some x, (11 : ℚ) / 10) = (some x, (11 : ℚ) / 10) := by
  induction ps with
  | nil => rfl
  | cons kp rest ih =>
    rw [List.foldl_cons, stdStep_keep words x kp, ih]

/-- The phase-2 scan returns the first stored pattern (in insertion
order) whose non-empty word set is contained in the query words: every
qualifying candidate scores the same 1.1, and the strict improvement test
keeps the earliest one. -/
theorem stdSearch_eq_find (words : List String) (ps : List (String × Pattern)) :
    stdSearch words ps = ps.find? (qualB words) := by
  induction ps with
  | nil => rfl
  | cons kp rest ih =>
    by_cases hq : qualB words kp = true
    · unfold stdSearch
      rw [List.foldl_cons, stdStep_qual words _ kp hq,
        if_pos (by norm_num : (11 : ℚ) / 10 > 0), foldl_stdStep_keep,
        List.find?_cons_of_pos _ hq]
    · have h' := Bool.of_not_eq_true hq
      unfold stdSearch
      rw [List.foldl_cons]
      have hstep : stdStep words (none, 0) kp = (none, 0) := by
        unfold qualB at h'
        rcases Bool.and_eq_false_iff.mp h' with h1 | h2
        · have : kp.2.words.dedup = [] := by
            cases hcase : kp.2.words.dedup with
            | nil => rfl
            | cons a l => rw [hcase] at h1; simp at h1
          exact stdStep_empty words _ kp this
        · exact stdStep_not_subset words _ kp h2
      rw [hstep, List.find?_cons_of_neg _ (by simp [h'])]
      exact ih

/-- When no key combination fires, the pre-pass finds nothing. -/
theorem keyComboSearch_none (words : List String) (ps : List (String × Pattern))
    (h : ∀ c ∈ key_combinations, wordsSubset c.1 words = false) :
    keyComboSearch words ps = none := by
  unfold keyComboSearch
  have aux : ∀ cs : List (List String × String),
      (∀ c ∈ cs, wordsSubset c.1 words = false) →
      (cs.findSome? fun combo =>
        if wordsSubset combo.1 words then
          ps.findSome? fun kp =>
            if comboTemplateTest combo.2 kp.2.template then some kp else none
        else none) = none := by
    intro cs
    induction cs with
    | nil => intro _; rfl
    | cons c rest ih =>
      intro hcs
      rw [List.findSome?_cons]
      rw [hcs c (List.mem_cons_self c rest)]
      exact ih fun c' hc' => hcs c' (List.mem_cons_of_mem c hc')
  exact aux key_combinations h

/- ------------------------------------------------------------------
   Helper lemmas: _find_pattern as a whole, and the pattern key
   ------------------------------------------------------------------ -/

/-- When the query words are non-empty and no key combination fires,
_find_pattern is the phase-2 scan, i.e. the first qualifying store
entry. -/
theorem find_pattern_k_eq_find (words : List String) (ps : List (String × Pattern))
    (hw : words ≠ []) (hcombo : ∀ c ∈ key_combinations, wordsSubset c.1 words = false) :
    _find_pattern_k words ps = ps.find? (qualB words) := by
  unfold _find_pattern_k
  rw [if_neg (by simpa using hw)]
  rw [keyComboSearch_none words ps hcombo]
  exact stdSearch_eq_find words ps

/-- Any result of the phase-2 scan has its word set contained in the
query words. -/
theorem stdSearch_subset (words : List String) (ps : List (String × Pattern))
    (kp : String × Pattern) (h : stdSearch words ps = some kp) :
    wordsSubset kp.2.words.dedup words = true := by
  rw [stdSearch_eq_find] at h
  have := List.find?_some h
  exact ((Bool.and_eq_true _ _).mp this).2

theorem lexLeB_total : ∀ a b : Str, lexLeB a b = true ∨ lexLeB b a = true := by
  intro a
  induction a with
  | nil => intro b; left; rfl
  | cons x as ih =>
    intro b
    cases b with
    | nil => right; rfl
    | cons y bs =>
      rcases Nat.lt_trichotomy x.toNat y.toNat with h | h | h
      · left; simp [lexLeB, h]
      · rcases ih bs with h2 | h2
        · left; simp [lexLeB, h, h2]
        · right; simp [lexLeB, h, h2]
      · right; simp [lexLeB, h]

theorem lexLeB_trans : ∀ a b c : Str, lexLeB a b = true → lexLeB b c = true →
    lexLeB a c = true := by
  intro a
  induction a with
  | nil => intro b c _ _; rfl
  | cons x as ih =>
    intro b c hab hbc
    cases b with
    | nil => simp [lexLeB] at hab
    | cons y bs =>
      cases c with
      | nil => simp [lexLeB] at hbc
      | cons z cs =>
        by_cases h1 : x.toNat < y.toNat
        · by_cases h2 : y.toNat < z.toNat
          · have hxz : x.toNat < z.toNat := h1.trans h2
            simp [lexLeB, hxz]
          · by_cases h3 : z.toNat < y.toNat
            · simp [lexLeB, h2, h3] at hbc
            · have hyz : y.toNat = z.toNat :=
                Nat.le_antisymm (Nat.not_lt.mp h3) (Nat.not_lt.mp h2)
              have hxz : x.toNat < z.toNat := hyz ▸ h1
              simp [lexLeB, hxz]
        · by_cases h1' : y.toNat < x.toNat
          · simp [lexLeB, h1, h1'] at hab
          · have hxy : x.toNat = y.toNat :=
              Nat.le_antisymm (Nat.not_lt.mp h1') (Nat.not_lt.mp h1)
            simp [lexLeB, h1, h1'] at hab
            by_cases h2 : y.toNat < z.toNat
            · have hxz : x.toNat < z.toNat := hxy ▸ h2
              simp [lexLeB, hxz]
            · by_cases h3 : z.toNat < y.toNat
              · simp [lexLeB, h2, h3] at hbc
              · have hyz : y.toNat = z.toNat :=
                  Nat.le_antisymm (Nat.not_lt.mp h3) (Nat.not_lt.mp h2)
                simp [lexLeB, h2, h3] at hbc
                have hxz1 : ¬x.toNat < z.toNat := by
                  rw [hxy, hyz]; exact lt_irrefl _
                have hxz2 : ¬z.toNat < x.toNat := by
                  rw [hxy, hyz]; exact lt_irrefl _
                simp [lexLeB, hxz1, hxz2]
                exact ih bs cs hab hbc

theorem lexLeB_antisymm : ∀ a b : Str, lexLeB a b = true → lexLeB b a = true →
    a = b := by
  intro a
  induction a with
  | nil =>
    intro b _ hba
    cases b with
    | nil => rfl
    | cons y bs => simp [lexLeB] at hba
  | cons x as ih =>
    intro b hab hba
    cases b with
    | nil => simp [lexLeB] at hab
    | cons y bs =>
      by_cases h1 : x.toNat < y.toNat
      · have h2 : ¬y.toNat < x.toNat := Nat.lt_asymm h1
        simp [lexLeB, h1, h2] at hba
      · by_cases h2 : y.toNat < x.toNat
        · simp [lexLeB, h1, h2] at hab
        · have hxy : x.toNat = y.toNat :=
            Nat.le_antisymm (Nat.not_lt.mp h2) (Nat.not_lt.mp h1)
          simp [lexLeB, h1, h2] at hab
          simp [lexLeB, h1, h2] at hba
          have htail := ih bs hab hba
          have hchar : x = y := Char.eq_of_val_eq (UInt32.ext hxy)
          rw [hchar, htail]

/-- _make_pattern_key depends only on the word set: queries whose word
lists are permutations of one another get the same key. -/
theorem make_pattern_key_perm (w1 w2 : List String) (h : w1.Perm w2) :
    _make_pattern_key w1 = _make_pattern_key w2 := by
  unfold _make_pattern_key
  congr 1
  haveI : IsTotal String pyStrLe := ⟨fun a b => lexLeB_total a.toList b.toList⟩
  haveI : IsTrans String pyStrLe :=
    ⟨fun a b c hab hbc => lexLeB_trans a.toList b.toList c.toList hab hbc⟩
  haveI : IsAntisymm String pyStrLe :=
    ⟨fun a b hab hba => String.ext (lexLeB_antisymm a.toList b.toList hab hba)⟩
  have s1 : List.Sorted pyStrLe (List.insertionSort pyStrLe w1.dedup) :=
    List.sorted_insertionSort _ _
  have s2 : List.Sorted pyStrLe (List.insertionSort pyStrLe w2.dedup) :=
    List.sorted_insertionSort _ _
  have hp : (List.insertionSort pyStrLe w1.dedup).Perm (List.insertionSort pyStrLe w2.dedup) :=
    (List.perm_insertionSort _ w1.dedup).trans
      ((h.dedup).trans (List.perm_insertionSort _ w2.dedup).symm)
  exact List.eq_of_perm_of_sorted hp s1 s2

/- ------------------------------------------------------------------
   Helper lemmas: the branches of build_sql_async
   ------------------------------------------------------------------ -/

theorem build_exact_hit (st : QCState) (q v : String) (f : Bool) (l : Option LLMCall)
    (h : assocLookup st.exact_cache q = some v) :
    build_sql_async st q f l =
      .ok (v, { st with stats := { st.stats with exact_hits := st.stats.exact_hits + 1 } }) := by
  unfold build_sql_async
  rw [h]

theorem build_pattern_hit (st : QCState) (q : String) (f : Bool) (l : Option LLMCall)
    (key : String) (p : Pattern)
    (hc : assocLookup st.exact_cache q = none)
    (hp : _find_pattern_k (_extract_words q) st.patterns = some (key, p)) :
    build_sql_async st q f l =
      if lbrace ∉ (_fill_template p.template q).toList then
        .ok (_fill_template p.template q,
          { st with
            exact_cache := dictInsert q (_fill_template p.template q) st.exact_cache,
            patterns := dictInsert key { p with count := p.count + 1 } st.patterns,
            stats := { st.stats with pattern_hits := st.stats.pattern_hits + 1 } })
      else
        .ok (_fill_template p.template q,
          { st with stats := { st.stats with pattern_hits := st.stats.pattern_hits + 1 } }) := by
  unfold build_sql_async
  rw [hc]
  dsimp only
  rw [hp]

theorem build_no_pattern_no_llm (st : QCState) (q : String) (f : Bool) (l : Option LLMCall)
    (hc : assocLookup st.exact_cache q = none)
    (hp : _find_pattern_k (_extract_words q) st.patterns = none)
    (hl : f = false ∨ l = none) :
    build_sql_async st q f l = .ok (defaultQuery, st) := by
  unfold build_sql_async
  rw [hc]
  dsimp only
  rw [hp]
  rcases hl with hl | hl
  · rw [hl]
    rfl
  · rw [hl]
    cases f <;> rfl

theorem resolve_iter_succ_ok (q : String) (f : Bool) (l : Option LLMCall) (n : Nat)
    (st : QCState) (out : String × QCState)
    (hb : build_sql_async (resolve_iter q f l n st) q f l = .ok out) :
    resolve_iter q f l (n + 1) st = out.2 := by
  obtain ⟨s, st'⟩ := out
  have hstep : resolve_iter q f l (n + 1) st =
      match build_sql_async (resolve_iter q f l n st) q f l with
      | .ok (_, st') => st'
      | .error _ => resolve_iter q f l n st := by
    simp only [resolve_iter]
  rw [hstep, hb]

theorem build_llm_empty (st : QCState) (q : String) (l : Option LLMCall)
    (hc : assocLookup st.exact_cache q = none)
    (hp : _find_pattern_k (_extract_words q) st.patterns = none)
    (hr : l = some (.ok none) ∨ ∃ r, l = some (.ok (some r)) ∧ r.sql = "") :
    build_sql_async st q true l =
      .ok (defaultQuery,
        { st with stats := { st.stats with llm_calls := st.stats.llm_calls + 1 } }) := by
  unfold build_sql_async
  rw [hc]
  dsimp only
  rw [hp]
  rcases hr with hl | ⟨r, hl, hsql⟩
  · rw [hl]
    rfl
  · rw [hl]
    dsimp only
    rw [if_neg (show ¬r.sql ≠ "" by simp [hsql])]
    rfl

/- ------------------------------------------------------------------
   The claims
   ------------------------------------------------------------------ -/

/-- C1: for every store state, query and fallback-enable flag, and for
every outcome of the fallback collaborator (absent, returning nothing,
returning a result, or raising), the public resolution build_sql_async
returns an .ok result carrying a string — no exception reaches the
caller. -/
theorem C1_resolve_never_raises (st : QCState) (q : String) (f : Bool)
    (l : Option LLMCall) : ∃ out, build_sql_async st q f l = .ok out := by
  unfold build_sql_async
  cases assocLookup st.exact_cache q with
  | some v => exact ⟨_, rfl⟩
  | none =>
    dsimp only
    cases _find_pattern_k (_extract_words q) st.patterns with
    | some kp =>
      obtain ⟨key, p⟩ := kp
      dsimp only
      by_cases hbr : lbrace ∉ (_fill_template p.template q).toList
      · rw [if_pos hbr]
        exact ⟨_, rfl⟩
      · rw [if_neg hbr]
        exact ⟨_, rfl⟩
    | none =>
      by_cases hf : (f && l.isSome) = true
      · rw [if_pos hf]
        dsimp only
        match l with
        | none => exact ⟨_, rfl⟩
        | some (.error e) => exact ⟨_, rfl⟩
        | some (.ok none) => exact ⟨_, rfl⟩
        | some (.ok (some r)) =>
          dsimp only
          by_cases hs : r.sql ≠ ""
          · rw [if_pos hs]
            exact ⟨_, rfl⟩
          · rw [if_neg hs]
            exact ⟨_, rfl⟩
      · rw [if_neg hf]
        exact ⟨_, rfl⟩

/-- C2: a query present in the exact cache resolves to exactly the cached
SQL, and however many times the resolution is repeated, the exact cache,
the pattern table and the word index are left unchanged (only the hit
counter moves) and every repetition keeps returning the cached value. -/
theorem C2_exact_cache_idempotent (st : QCState) (q v : String) (f : Bool)
    (l : Option LLMCall) (h : assocLookup st.exact_cache q = some v) (n : Nat) :
    (resolve_iter q f l n st).exact_cache = st.exact_cache ∧
    (resolve_iter q f l n st).patterns = st.patterns ∧
    (resolve_iter q f l n st).word_index = st.word_index ∧
    build_sql_async (resolve_iter q f l n st) q f l =
      .ok (v, resolve_iter q f l (n + 1) st) := by
  induction n with
  | zero =>
    refine ⟨rfl, rfl, rfl, ?_⟩
    have hb : build_sql_async (resolve_iter q f l 0 st) q f l =
        .ok (v, { st with stats := { st.stats with exact_hits := st.stats.exact_hits + 1 } }) :=
      build_exact_hit st q v f l h
    rw [resolve_iter_succ_ok q f l 0 st _ hb]
    exact hb
  | succ n ih =>
    obtain ⟨hcache, hpat, hwi, hbuild⟩ := ih
    have hlook : assocLookup (resolve_iter q f l n st).exact_cache q = some v := by
      rw [hcache]; exact h
    have hb := build_exact_hit (resolve_iter q f l n st) q v f l hlook
    have hstate : resolve_iter q f l (n + 1) st =
        { resolve_iter q f l n st with
          stats := { (resolve_iter q f l n st).stats with
            exact_hits := (resolve_iter q f l n st).stats.exact_hits + 1 } } :=
      resolve_iter_succ_ok q f l n st _ hb
    have hlook2 : assocLookup (resolve_iter q f l (n + 1) st).exact_cache q = some v := by
      rw [hstate]; exact hlook
    have hb2 := build_exact_hit (resolve_iter q f l (n + 1) st) q v f l hlook2
    refine ⟨by rw [hstate]; exact hcache, by rw [hstate]; exact hpat,
      by rw [hstate]; exact hwi, ?_⟩
    rw [resolve_iter_succ_ok q f l (n + 1) st _ hb2]
    exact hb2

/-- Witness for C2 at a seeded cache entry: the first seed query resolves
from the exact cache to its seeded SQL on the second repetition as well. -/
theorem C2_exact_cache_idempotent_witness :
    assocLookup initState.exact_cache "Сколько всего видео есть в системе?" =
      some "SELECT COUNT(*) FROM videos" ∧
    (resolve_iter "Сколько всего видео есть в системе?" true none 1 initState).exact_cache =
      initState.exact_cache ∧
    build_sql_async (resolve_iter "Сколько всего видео есть в системе?" true none 1 initState)
        "Сколько всего видео есть в системе?" true none =
      .ok ("SELECT COUNT(*) FROM videos",
        resolve_iter "Сколько всего видео есть в системе?" true none 2 initState) := by
  have h : assocLookup initState.exact_cache "Сколько всего видео есть в системе?" =
      some "SELECT COUNT(*) FROM videos" := by decide
  have happ := C2_exact_cache_idempotent initState "Сколько всего видео есть в системе?"
    "SELECT COUNT(*) FROM videos" true none h 1
  exact ⟨h, happ.1, happ.2.2.2⟩

/-- C9: with no exact-cache hit, no pattern match, and the fallback
disabled or unconfigured, resolution returns exactly the fixed default
query as an ordinary (.ok) result, leaving the state untouched. -/
theorem C9_no_match_default (st : QCState) (q : String) (f : Bool) (l : Option LLMCall)
    (hc : assocLookup st.exact_cache q = none)
    (hp : _find_pattern_k (_extract_words q) st.patterns = none)
    (hl : f = false ∨ l = none) :
    build_sql_async st q f l = .ok (defaultQuery, st) :=
  build_no_pattern_no_llm st q f l hc hp hl

/-- Witness for C9: the spec's own scenario query, resolved on the seeded
state with the fallback disabled, yields the default count query. -/
theorem C9_no_match_default_witness :
    assocLookup initState.exact_cache "дайте непонятный вопрос без паттерна" = none ∧
    _find_pattern_k (_extract_words "дайте непонятный вопрос без паттерна")
      initState.patterns = none ∧
    build_sql_async initState "дайте непонятный вопрос без паттерна" false none =
      .ok ("SELECT COUNT(*) FROM videos", initState) := by
  refine ⟨by decide, by decide, ?_⟩
  exact C9_no_match_default initState "дайте непонятный вопрос без паттерна" false none
    (by decide) (by decide) (Or.inl rfl)

/-- C3 amended: when no key combination applies, find_pattern returns the
first stored pattern in insertion order whose non-empty word set is
contained in the query's words — every qualifying candidate scores the
same 1.1, so store insertion order, not specificity, decides. -/
theorem C3_first_qualifying_wins (words : List String) (ps : List (String × Pattern))
    (hw : words ≠ [])
    (hcombo : ∀ c ∈ key_combinations, wordsSubset c.1 words = false) :
    _find_pattern words ps = (ps.find? (qualB words)).map (·.2) := by
  unfold _find_pattern
  rw [find_pattern_k_eq_find words ps hw hcombo]

/-- Witness for C3's amended statement on a two-pattern store. -/
theorem C3_first_qualifying_wins_witness :
    (∀ c ∈ key_combinations, wordsSubset c.1 ["просмотров", "набрало"] = false) ∧
    _find_pattern ["просмотров", "набрало"]
        [("a", ⟨["росток"], "T0", 1, [], "manual", ""⟩),
         ("b", ⟨["набрало"], "T1", 1, [], "manual", ""⟩),
         ("c", ⟨["просмотров", "набрало"], "T2", 1, [], "manual", ""⟩)] =
      some ⟨["набрало"], "T1", 1, [], "manual", ""⟩ := by
  refine ⟨by decide, ?_⟩
  rw [C3_first_qualifying_wins ["просмотров", "набрало"] _ (by decide) (by decide)]
  decide

/-- C3 counterexample: P1 and P2 are both stored, P1's word set is a
strict subset of P2's, both are subsets of the query's word set, yet
find_pattern selects P1, not the more specific P2. -/
theorem C3_counterexample :
    _find_pattern ["просмотров", "набрало"]
        [("a", ⟨["просмотров"], "T1", 1, [], "manual", ""⟩),
         ("b", ⟨["просмотров", "набрало"], "T2", 1, [], "manual", ""⟩)] =
      some ⟨["просмотров"], "T1", 1, [], "manual", ""⟩ ∧
    (some (⟨["просмотров"], "T1", 1, [], "manual", ""⟩ : Pattern) ≠
      some (⟨["просмотров", "набрало"], "T2", 1, [], "manual", ""⟩ : Pattern)) ∧
    wordsSubset ["просмотров"] ["просмотров", "набрало"] = true ∧
    wordsSubset ["просмотров", "набрало"] ["просмотров"] = false ∧
    wordsSubset ["просмотров", "набрало"] ["просмотров", "набрало"] = true := by
  refine ⟨?_, by decide, by decide, by decide, by decide⟩
  unfold _find_pattern
  rw [find_pattern_k_eq_find _ _ (by decide) (by decide)]
  decide

/-- C4 amended: whenever the key-combination pre-pass does not apply, any
pattern returned by find_pattern has its word set contained in the
query's; the pre-pass itself selects by template content and can return
non-subset patterns. -/
theorem C4_subset_when_no_combo (words : List String) (ps : List (String × Pattern))
    (p : Pattern)
    (hcombo : ∀ c ∈ key_combinations, wordsSubset c.1 words = false)
    (h : _find_pattern words ps = some p) :
    wordsSubset p.words.dedup words = true := by
  unfold _find_pattern _find_pattern_k at h
  by_cases hw : words.isEmpty
  · rw [if_pos hw] at h
    exact absurd h (by simp)
  · rw [if_neg hw] at h
    rw [keyComboSearch_none words ps hcombo] at h
    cases hs : stdSearch words ps with
    | none => rw [hs] at h; exact absurd h (by simp)
    | some kp =>
      rw [hs] at h
      simp only [Option.map_some'] at h
      have hsub := stdSearch_subset words ps kp hs
      rw [← Option.some_inj.mp h]
      exact hsub

/-- Witness for C4's amended statement. -/
theorem C4_subset_when_no_combo_witness :
    (∀ c ∈ key_combinations, wordsSubset c.1 ["тестовое", "слово"] = false) ∧
    _find_pattern ["тестовое", "слово"]
        [("a", ⟨["слово"], "T1", 1, [], "manual", ""⟩)] =
      some ⟨["слово"], "T1", 1, [], "manual", ""⟩ ∧
    wordsSubset (⟨["слово"], "T1", 1, [], "manual", ""⟩ : Pattern).words.dedup
      ["тестовое", "слово"] = true := by
  have hfp : _find_pattern ["тестовое", "слово"]
      [("a", ⟨["слово"], "T1", 1, [], "manual", ""⟩)] =
      some ⟨["слово"], "T1", 1, [], "manual", ""⟩ := by
    unfold _find_pattern
    rw [find_pattern_k_eq_find _ _ (by decide) (by decide)]
    decide
  refine ⟨by decide, hfp, ?_⟩
  exact C4_subset_when_no_combo ["тестовое", "слово"]
    [("a", ⟨["слово"], "T1", 1, [], "manual", ""⟩)]
    ⟨["слово"], "T1", 1, [], "manual", ""⟩ (by decide) hfp

/-- C4 counterexample: the query words contain the count_creators key
combination, so the pre-pass returns the first pattern whose template
mentions COUNT(DISTINCT creator_id) — here a pattern whose word set is
disjoint from the query's word set. -/
theorem C4_counterexample :
    _find_pattern ["сколько", "креаторов"]
        [("k", ⟨["другие", "слова"],
          "SELECT COUNT(DISTINCT creator_id) FROM videos", 1, [], "tz", ""⟩)] =
      some ⟨["другие", "слова"],
        "SELECT COUNT(DISTINCT creator_id) FROM videos", 1, [], "tz", ""⟩ ∧
    wordsSubset ["другие", "слова"] ["сколько", "креаторов"] = false := by
  decide

/-- C5 amended: the pattern-hit path of resolution only adds
placeholder-free values to the exact cache (any entry of the new cache is
either an old entry or brace-free); the seeded, manual and
fallback-learned entries are not covered and do violate the original
invariant. -/
theorem C5_pattern_path_cache_placeholder_free (st : QCState) (q : String) (f : Bool)
    (l : Option LLMCall) (key : String) (p : Pattern)
    (hc : assocLookup st.exact_cache q = none)
    (hp : _find_pattern_k (_extract_words q) st.patterns = some (key, p)) :
    ∀ q' v, assocLookup (resolve_iter q f l 1 st).exact_cache q' = some v →
      assocLookup st.exact_cache q' = some v ∨ lbrace ∉ v.toList := by
  have hb := build_pattern_hit st q f l key p hc hp
  by_cases hbr : lbrace ∉ (_fill_template p.template q).toList
  · rw [if_pos hbr] at hb
    have hstate := resolve_iter_succ_ok q f l 0 st _ hb
    intro q' v hv
    rw [hstate] at hv
    dsimp only at hv
    rw [assocLookup_dictInsert] at hv
    by_cases hq : q' = q
    · rw [if_pos hq] at hv
      right
      injection hv with hv'
      rw [← hv']
      exact hbr
    · rw [if_neg hq] at hv
      left
      exact hv
  · rw [if_neg hbr] at hb
    have hstate := resolve_iter_succ_ok q f l 0 st _ hb
    intro q' v hv
    rw [hstate] at hv
    left
    exact hv

/-- Witness for C5's amended statement: a pattern-hit resolution on the
seeded store caches a brace-free value. -/
theorem C5_pattern_path_witness :
    assocLookup initState.exact_cache "Сколько всего видео есть в системе сегодня?" = none ∧
    _find_pattern_k (_extract_words "Сколько всего видео есть в системе сегодня?")
        initState.patterns =
      some ("видео системе сколько",
        ⟨["сколько", "видео", "системе"], "SELECT COUNT(*) FROM videos", 1,
          ["Сколько всего видео есть в системе?"], "tz", ""⟩) ∧
    (assocLookup initState.exact_cache "Сколько всего видео есть в системе сегодня?" =
        some "SELECT COUNT(*) FROM videos" ∨
      lbrace ∉ "SELECT COUNT(*) FROM videos".toList) := by
  have hc : assocLookup initState.exact_cache
      "Сколько всего видео есть в системе сегодня?" = none := by decide
  have hp : _find_pattern_k (_extract_words "Сколько всего видео есть в системе сегодня?")
      initState.patterns =
      some ("видео системе сколько",
        ⟨["сколько", "видео", "системе"], "SELECT COUNT(*) FROM videos", 1,
          ["Сколько всего видео есть в системе?"], "tz", ""⟩) := by
    rw [find_pattern_k_eq_find _ _ (by decide) (by decide)]
    decide
  refine ⟨hc, hp, ?_⟩
  have hb := build_pattern_hit initState "Сколько всего видео есть в системе сегодня?"
    false none "видео системе сколько"
    ⟨["сколько", "видео", "системе"], "SELECT COUNT(*) FROM videos", 1,
      ["Сколько всего видео есть в системе?"], "tz", ""⟩ hc hp
  have hbr : lbrace ∉ (_fill_template
      (⟨["сколько", "видео", "системе"], "SELECT COUNT(*) FROM videos", 1,
        ["Сколько всего видео есть в системе?"], "tz", ""⟩ : Pattern).template
      "Сколько всего видео есть в системе сегодня?").toList := by decide
  rw [if_pos hbr] at hb
  have hstate := resolve_iter_succ_ok "Сколько всего видео есть в системе сегодня?"
    false none 0 initState _ hb
  have hv : assocLookup
      (resolve_iter "Сколько всего видео есть в системе сегодня?" false none 1
        initState).exact_cache
      "Сколько всего видео есть в системе сегодня?" =
      some (_fill_template
        (⟨["сколько", "видео", "системе"], "SELECT COUNT(*) FROM videos", 1,
          ["Сколько всего видео есть в системе?"], "tz", ""⟩ : Pattern).template
        "Сколько всего видео есть в системе сегодня?") := by
    rw [hstate]
    dsimp only
    rw [assocLookup_dictInsert]
    rw [if_pos rfl]
  have happ := C5_pattern_path_cache_placeholder_free initState
    "Сколько всего видео есть в системе сегодня?" false none
    "видео системе сколько"
    ⟨["сколько", "видео", "системе"], "SELECT COUNT(*) FROM videos", 1,
      ["Сколько всего видео есть в системе?"], "tz", ""⟩ hc hp
    "Сколько всего видео есть в системе сегодня?"
    (_fill_template
      (⟨["сколько", "видео", "системе"], "SELECT COUNT(*) FROM videos", 1,
        ["Сколько всего видео есть в системе?"], "tz", ""⟩ : Pattern).template
      "Сколько всего видео есть в системе сегодня?") hv
  have hfill : _fill_template
      (⟨["сколько", "видео", "системе"], "SELECT COUNT(*) FROM videos", 1,
        ["Сколько всего видео есть в системе?"], "tz", ""⟩ : Pattern).template
      "Сколько всего видео есть в системе сегодня?" =
      "SELECT COUNT(*) FROM videos" := by decide
  rw [hfill] at happ
  exact happ

/-- C5 counterexample: already the constructed initial state violates the
claim — the seeding puts the raw template, placeholder included, into the
exact cache. -/
theorem C5_counterexample :
    assocLookup initState.exact_cache "Сколько видео набрало больше 100000 просмотров?" =
      some "SELECT COUNT(*) FROM videos WHERE views_count > {NUMBER}" ∧
    lbrace ∈ "SELECT COUNT(*) FROM videos WHERE views_count > {NUMBER}".toList := by
  decide

/-- C6 amended: resolution does not learn when the collaborator returns
no reply or a reply with empty sql (it returns the default and leaves
patterns and cache untouched); the is_safe field, however, is never
consulted, so an unsafe reply with non-empty sql is learned. -/
theorem C6_no_learning_from_empty_reply (st : QCState) (q : String) (f : Bool)
    (l : Option LLMCall)
    (hc : assocLookup st.exact_cache q = none)
    (hp : _find_pattern_k (_extract_words q) st.patterns = none)
    (hr : l = some (.ok none) ∨ ∃ r, l = some (.ok (some r)) ∧ r.sql = "") :
    build_sql_async st q f l = .ok (defaultQuery, resolve_iter q f l 1 st) ∧
    (resolve_iter q f l 1 st).patterns = st.patterns ∧
    (resolve_iter q f l 1 st).exact_cache = st.exact_cache := by
  cases f with
  | false =>
    have hb := build_no_pattern_no_llm st q false l hc hp (Or.inl rfl)
    have hstate := resolve_iter_succ_ok q false l 0 st _ hb
    exact ⟨by rw [hstate]; exact hb, by rw [hstate], by rw [hstate]⟩
  | true =>
    have hb := build_llm_empty st q l hc hp hr
    have hstate := resolve_iter_succ_ok q true l 0 st _ hb
    exact ⟨by rw [hstate]; exact hb, by rw [hstate], by rw [hstate]⟩

/-- Witness for C6's amended statement: a None reply on an unmatched
query leaves patterns and cache unchanged. -/
theorem C6_no_learning_witness :
    assocLookup emptyState.exact_cache "абракадабра тест" = none ∧
    _find_pattern_k (_extract_words "абракадабра тест") emptyState.patterns = none ∧
    build_sql_async emptyState "абракадабра тест" true (some (.ok none)) =
      .ok (defaultQuery,
        resolve_iter "абракадабра тест" true (some (.ok none)) 1 emptyState) ∧
    (resolve_iter "абракадабра тест" true (some (.ok none)) 1 emptyState).patterns =
      emptyState.patterns := by
  have happ := C6_no_learning_from_empty_reply emptyState "абракадабра тест" true
    (some (.ok none)) (by decide) (by decide) (Or.inl rfl)
  exact ⟨by decide, by decide, happ.1, happ.2.1⟩

/-- C6 counterexample: a reply whose is_safe field is false but whose sql
is non-empty IS learned — a pattern is added and the sql is cached,
because resolution only tests `result and result.sql`, never is_safe. -/
theorem C6_counterexample :
    ((build_sql_async emptyState "абракадабра запрос" true
        (some (.ok (some ⟨"DROP TABLE videos", false⟩)))).toOption.map
      (fun out => (out.1, out.2.patterns.length,
        assocLookup out.2.exact_cache "абракадабра запрос"))) =
      some ("DROP TABLE videos", emptyState.patterns.length + 1,
        some "DROP TABLE videos") ∧
    (⟨"DROP TABLE videos", false⟩ : LLMResult).is_safe = false ∧
    ("DROP TABLE videos" : String) ≠ "" := by
  decide

/-- C7 (code bug): generalizing a SQL answer does NOT preserve the
delta-against-zero comparison — the generic numeric rule turns
`delta_views_count < 0` into `delta_views_count < {NUMBER}` — even though
the negative_delta key combination of _find_pattern (and the archived
revision of the generalizer) expect the zero comparison to survive
verbatim in stored templates. -/
theorem C7_delta_zero_not_preserved :
    _generalize_sql "SELECT COUNT(*) FROM video_snapshots WHERE delta_views_count < 0" =
      "SELECT COUNT(*) FROM video_snapshots WHERE delta_views_count < {NUMBER}" ∧
    strContains
      (_generalize_sql "SELECT COUNT(*) FROM video_snapshots WHERE delta_views_count < 0")
      "delta_views_count < 0" = false ∧
    comboTemplateTest "negative_delta"
      (_generalize_sql "SELECT COUNT(*) FROM video_snapshots WHERE delta_views_count < 0") =
      false ∧
    comboTemplateTest "negative_delta"
      "SELECT COUNT(*) FROM video_snapshots WHERE delta_views_count < 0" = true := by
  decide

/-- C8 amended: for hour bounds written without leading zeros, the filler
substitutes hours so that a BETWEEN clause receives H1 and H2−1 while
half-open >=/< comparisons receive H1 and H2 verbatim — proved for every
pair of bounds below 13 and for representative one- and two-digit pairs
across the full 0..23 range.  (With a leading zero in the query, the
BETWEEN fix-up regex fails to match and the end bound is left at H2 — see
the counterexample.) -/
theorem C8_hour_substitution :
    (∀ h1 : Nat, h1 < 13 → ∀ h2 : Nat, h2 < 13 → h1 < h2 → hour_fill_ok h1 h2) ∧
    hour_fill_ok 10 15 ∧ hour_fill_ok 9 15 ∧ hour_fill_ok 13 23 ∧
    hour_fill_ok 0 23 ∧ hour_fill_ok 15 16 ∧ hour_fill_ok 10 23 := by
  refine ⟨by decide, by decide, by decide, by decide, by decide, by decide, by decide⟩

/-- Witness for C8's bounded universal part at H1 = 5, H2 = 12. -/
theorem C8_hour_substitution_witness : hour_fill_ok 5 12 :=
  C8_hour_substitution.1 5 (by decide) 12 (by decide) (by decide)

/-- C8 counterexample: with the hour written as "09" the extracted hour
strings keep the leading zero, the dynamically built BETWEEN fix-up regex
(str(9) = "9") does not match "BETWEEN 09 AND 15", and the BETWEEN bounds
are left at 09 and 15 instead of the claimed 9 and 14. -/
theorem C8_counterexample :
    hourSearch ("с 09:00 до 15:00".toList) = some ("09".toList, "15".toList) ∧
    _fill_template "SELECT x FROM t WHERE h BETWEEN {HOUR1} AND {HOUR2}"
        "с 09:00 до 15:00" =
      "SELECT x FROM t WHERE h BETWEEN 09 AND 15" ∧
    strContains
      (_fill_template "SELECT x FROM t WHERE h BETWEEN {HOUR1} AND {HOUR2}"
        "с 09:00 до 15:00")
      "BETWEEN 9 AND 14" = false := by
  decide

/-- Helper: learning with a fresh key appends one new pattern record. -/
theorem learn_new_pattern (st : QCState) (q sql : String) (words : List String)
    (src : String) (hw : words.isEmpty = false)
    (habs : assocLookup st.patterns (_make_pattern_key words) = none) :
    (_learn_from_example st q sql words src).patterns =
      st.patterns ++ [(_make_pattern_key words,
        ⟨words, _generalize_sql sql, 1, [q], src, ""⟩)] := by
  unfold _learn_from_example
  rw [hw]
  dsimp only
  rw [habs]
  rfl

/-- Helper: learning with an existing key bumps that pattern in place. -/
theorem learn_existing_pattern (st : QCState) (q sql : String) (words : List String)
    (src : String) (p : Pattern) (hw : words.isEmpty = false)
    (hfound : assocLookup st.patterns (_make_pattern_key words) = some p) :
    (_learn_from_example st q sql words src).patterns =
      dictInsert (_make_pattern_key words)
        { p with count := p.count + 1, examples := p.examples ++ [q] } st.patterns := by
  unfold _learn_from_example
  rw [hw]
  dsimp only
  rw [hfound]
  rfl

/-- C10: the pattern key is a function of the normalized word set alone —
two queries normalizing to the same word set share one key; learning the
first example creates a single pattern with count 1, learning the second
bumps that same pattern to count 2 and appends the example without
creating a second pattern; and learning with an empty word set leaves the
state untouched. -/
theorem C10_pattern_key_set_function (st : QCState) (q1 q2 sql1 sql2 src1 src2 : String)
    (hperm : (_extract_words q1).Perm (_extract_words q2))
    (hne : _extract_words q1 ≠ [])
    (habs : assocLookup st.patterns (_make_pattern_key (_extract_words q1)) = none) :
    _make_pattern_key (_extract_words q1) = _make_pattern_key (_extract_words q2) ∧
    (_learn_from_example (_learn_from_example st q1 sql1 (_extract_words q1) src1) q2 sql2
        (_extract_words q2) src2).patterns.length =
      (_learn_from_example st q1 sql1 (_extract_words q1) src1).patterns.length ∧
    assocLookup (_learn_from_example st q1 sql1 (_extract_words q1) src1).patterns
        (_make_pattern_key (_extract_words q1)) =
      some ⟨_extract_words q1, _generalize_sql sql1, 1, [q1], src1, ""⟩ ∧
    assocLookup (_learn_from_example (_learn_from_example st q1 sql1 (_extract_words q1) src1)
        q2 sql2 (_extract_words q2) src2).patterns (_make_pattern_key (_extract_words q1)) =
      some ⟨_extract_words q1, _generalize_sql sql1, 2, [q1, q2], src1, ""⟩ ∧
    (∀ (st' : QCState) (q' sql' src' : String), _extract_words q' = [] →
      _learn_from_example st' q' sql' (_extract_words q') src' = st') := by
  have hkey := make_pattern_key_perm _ _ hperm
  have hw1 : (_extract_words q1).isEmpty = false := by
    cases hcase : _extract_words q1 with
    | nil => exact absurd hcase hne
    | cons a l => rfl
  have hne2 : _extract_words q2 ≠ [] := fun hnil =>
    hne (List.Perm.eq_nil (hnil ▸ hperm))
  have hw2 : (_extract_words q2).isEmpty = false := by
    cases hcase : _extract_words q2 with
    | nil => exact absurd hcase hne2
    | cons a l => rfl
  have hp1 := learn_new_pattern st q1 sql1 (_extract_words q1) src1 hw1 habs
  have hlook1 : assocLookup (_learn_from_example st q1 sql1 (_extract_words q1) src1).patterns
      (_make_pattern_key (_extract_words q1)) =
      some ⟨_extract_words q1, _generalize_sql sql1, 1, [q1], src1, ""⟩ := by
    rw [hp1]
    exact assocLookup_append_of_none _ _ _ habs
  have hlook1' : assocLookup (_learn_from_example st q1 sql1 (_extract_words q1) src1).patterns
      (_make_pattern_key (_extract_words q2)) =
      some ⟨_extract_words q1, _generalize_sql sql1, 1, [q1], src1, ""⟩ := by
    rw [← hkey]
    exact hlook1
  have hp2 := learn_existing_pattern (_learn_from_example st q1 sql1 (_extract_words q1) src1)
    q2 sql2 (_extract_words q2) src2 _ hw2 hlook1'
  refine ⟨hkey, ?_, hlook1, ?_, ?_⟩
  · rw [hp2, ← hkey]
    exact dictInsert_length_of_mem _ _ _ (by rw [hlook1]; rfl)
  · rw [hp2, ← hkey, assocLookup_dictInsert, if_pos rfl]
    rfl
  · intro st' q' sql' src' hq'
    unfold _learn_from_example
    rw [hq']
    rfl

/-- Witness for C10: two queries with the same word set in different
order (and a duplicated word) learn into a single pattern. -/
theorem C10_pattern_key_set_function_witness :
    (_extract_words "видео сколько новых").Perm
      (_extract_words "сколько видео видео новых?") ∧
    _make_pattern_key (_extract_words "видео сколько новых") =
      _make_pattern_key (_extract_words "сколько видео видео новых?") ∧
    assocLookup (_learn_from_example
        (_learn_from_example emptyState "видео сколько новых"
          "SELECT COUNT(*) FROM videos" (_extract_words "видео сколько новых") "manual")
        "сколько видео видео новых?" "SELECT COUNT(*) FROM videos"
        (_extract_words "сколько видео видео новых?") "manual").patterns
        (_make_pattern_key (_extract_words "видео сколько новых")) =
      some ⟨_extract_words "видео сколько новых",
        _generalize_sql "SELECT COUNT(*) FROM videos", 2,
        ["видео сколько новых", "сколько видео видео новых?"], "manual", ""⟩ ∧
    _extract_words "с у" = [] ∧
    _learn_from_example emptyState "с у" "SELECT 1 FROM videos"
      (_extract_words "с у") "manual" = emptyState := by
  have hperm : (_extract_words "видео сколько новых").Perm
      (_extract_words "сколько видео видео новых?") := by
    decide
  have happ := C10_pattern_key_set_function emptyState "видео сколько новых"
    "сколько видео видео новых?" "SELECT COUNT(*) FROM videos"
    "SELECT COUNT(*) FROM videos" "manual" "manual" hperm (by decide) (by decide)
  exact ⟨hperm, happ.1, happ.2.2.2.1,
    by decide, happ.2.2.2.2 emptyState "с у" "SELECT 1 FROM videos" "manual" (by decide)⟩

end QC

